import Mathlib

/-!
Shallow embedding of the WhatsApp AI agent's message admission and dispatch
pipeline (src/message_handler.py, src/ai_processor.py, src/bot.py), together
with theorems settling the frozen claims about it.

Conventions of the embedding:
* Python `datetime` values are modelled as integers (seconds); `timedelta(hours=1)`
  is the constant `hourSeconds = 3600`.
* Python dicts keyed by sender are modelled as functions from `String`;
  `message_timestamps` (which is only ever read through `.get`-like access after
  initialisation to `[]`) as a total function defaulting to `[]`, and
  `conversation_history` (where key presence matters, because
  `dict.get(sender, [])` returns the stored list object itself and in-place
  `append` mutates it) as `String → Option (List Turn)`.
* Python sets of contact strings are modelled as lists with membership.
* The regular expressions in the source are alternations of literals or a
  single anchored pattern; they are embedded as membership tests, literal
  substring scans and an explicit head-pattern test. The configured bot name
  is treated as a literal (the default "AI Assistant" contains no regex
  metacharacters).
-/

namespace WhatsAppAgent

/-- One conversation turn as stored by `AIProcessor` (`role`, `content`,
`timestamp`). -/
structure Turn where
  role : String
  content : String
  timestamp : Int
deriving DecidableEq, Repr

/-- The `messaging` configuration consumed by `MessageHandler.__init__`. -/
structure MessagingConfig where
  allowed_contacts : List String
  blocked_contacts : List String
  respond_to_groups : Bool
  require_mention : Bool
  rate_limit_enabled : Bool
  max_messages_per_hour : Nat
  bot_name : String
deriving Repr

/-- The `ai` configuration consumed by `AIProcessor.__init__` (only the field
the claims exercise). -/
structure AIConfig where
  max_history_length : Nat
deriving Repr

/-- An inbound message record `{from, body, isGroupMsg, type}`. -/
structure Message where
  sender : String
  body : String
  isGroupMsg : Bool
  mtype : String
deriving DecidableEq, Repr

/-- Mutable state of `MessageHandler`: the per-sender rate-limit windows
(`self.message_timestamps`). Missing keys behave exactly like `[]` there. -/
structure RLState where
  timestamps : String → List Int

/-- Mutable state of `AIProcessor`: the per-sender conversation store
(`self.conversation_history`); `none` means the key is absent. -/
structure AIState where
  conversation_history : String → Option (List Turn)

/-- `timedelta(hours=1)` in seconds. -/
def hourSeconds : Int := 3600

/-- Python `str.lower()` (character-wise lowercasing). -/
def pyLower (s : String) : String := (s.toList.map Char.toLower).asString

/-- Python `str.strip()`: drop whitespace from both ends (whitespace here
is `Char.isWhitespace`, covering the ASCII space, tab, CR and LF the
messages use). -/
def pyStrip (s : String) : String :=
  (((s.toList.dropWhile Char.isWhitespace).reverse.dropWhile
      Char.isWhitespace).reverse).asString

/-- `MessageHandler._is_blocked_contact`. -/
def is_blocked_contact (cfg : MessagingConfig) (sender : String) : Bool :=
  cfg.blocked_contacts.contains sender

/-- `MessageHandler._is_allowed_contact`:
`not self.allowed_contacts or sender in self.allowed_contacts`. -/
def is_allowed_contact (cfg : MessagingConfig) (sender : String) : Bool :=
  cfg.allowed_contacts.isEmpty || cfg.allowed_contacts.contains sender

/-- `MessageHandler._check_rate_limit`.  Prunes the sender's window keeping
only timestamps strictly newer than `now - 1 hour`, rejects without recording
when the pruned count has reached `max_messages_per_hour`, otherwise records
`now`.  When rate limiting is disabled it returns `True` touching nothing. -/
def check_rate_limit (cfg : MessagingConfig) (st : RLState) (sender : String)
    (now : Int) : Bool × RLState :=
  if cfg.rate_limit_enabled = false then (true, st)
  else
    let hour_ago := now - hourSeconds
    let kept := (st.timestamps sender).filter (fun t => decide (hour_ago < t))
    if cfg.max_messages_per_hour ≤ kept.length then
      (false, ⟨fun s => if s = sender then kept else st.timestamps s⟩)
    else
      (true, ⟨fun s => if s = sender then kept ++ [now] else st.timestamps s⟩)

/-- The five fixed commands of `MessageHandler.command_patterns`. -/
inductive Command where
  | help
  | status
  | clear
  | stop
  | start
deriving DecidableEq, Repr

/-- The alternation of literals of each command's anchored regex, e.g.
`clear ↦ ^(?:clear|\/clear|reset)$`. -/
def command_synonyms : Command → List String
  | .help => ["help", "/help", "?help"]
  | .status => ["status", "/status"]
  | .clear => ["clear", "/clear", "reset"]
  | .stop => ["stop", "/stop", "pause"]
  | .start => ["start", "/start", "resume"]

/-- The pattern-scanning loop of `MessageHandler._process_command`: lowercase
and strip the body, then try the anchored patterns in the dict's insertion
order (`help`, `status`, `clear`, `stop`, `start`), returning the first full
match. -/
def match_command (content : String) : Option Command :=
  let cl := pyStrip (pyLower content)
  if cl ∈ command_synonyms .help then some .help
  else if cl ∈ command_synonyms .status then some .status
  else if cl ∈ command_synonyms .clear then some .clear
  else if cl ∈ command_synonyms .stop then some .stop
  else if cl ∈ command_synonyms .start then some .start
  else none

/-- The record returned by `MessageHandler._handle_command` (keys `content`,
`response_type`, optional `clear_history`, optional `action`). -/
structure CommandResult where
  content : String
  response_type : String
  clear_history : Bool
  action : Option String
deriving DecidableEq, Repr

/-- `MessageHandler._get_help_message` (the source uses escaped backslashes,
so the text holds literal two-character `\n` sequences). -/
def help_message : String :=
  "🤖 *AI Assistant Help*\\n\\n*Available Commands:*\\n• `help` - Show this help message\\n• `status` - Check bot status\\n• `clear` - Clear conversation history\\n• `stop` - Stop responding to your messages\\n• `start` - Resume responding\\n\\n*Just send me any message and I\x27ll try to help!*"

/-- `MessageHandler._handle_command`. -/
def handle_command : Command → CommandResult
  | .help => ⟨help_message, "text", false, none⟩
  | .status => ⟨"I\x27m online and ready to help! 🤖", "text", false, none⟩
  | .clear => ⟨"Conversation history cleared! 🧹", "text", true, none⟩
  | .stop => ⟨"I\x27ll stop responding to your messages. Send \x27start\x27 to resume.", "text", false, some "pause"⟩
  | .start => ⟨"I\x27m back! How can I help you?", "text", false, some "resume"⟩

/-- Case-insensitive prefix test on character lists (how `re.IGNORECASE`
matches a literal alternative at a position). -/
def ciStarts : List Char → List Char → Bool
  | [], _ => true
  | _ :: _, [] => false
  | p :: ps, c :: cs => (p.toLower == c.toLower) && ciStarts ps cs

/-- Scanner for `removeCI`: `skip` counts matched characters that still have
to be consumed before scanning resumes (after a match at a position, the
scan continues right after the matched occurrence). -/
def removeCIAux (pat : List Char) : Nat → List Char → List Char
  | _, [] => []
  | skip + 1, _ :: cs => removeCIAux pat skip cs
  | 0, c :: cs =>
    if ciStarts pat (c :: cs) then removeCIAux pat (pat.length - 1) cs
    else c :: removeCIAux pat 0 cs

/-- `re.sub(pat, '', s, flags=re.IGNORECASE)` for a literal pattern `pat`:
remove every leftmost non-overlapping case-insensitive occurrence. An empty
pattern leaves the string unchanged (as `re.sub` with an empty pattern and an
empty replacement does). -/
def removeCI (pat s : List Char) : List Char :=
  if pat = [] then s else removeCIAux pat 0 s

/-- String-level wrapper for `removeCI`. -/
def subCI (pat s : String) : String := (removeCI pat.toList s.toList).asString

/-- The character class `[,:\s]` of the anchored mention pattern. -/
def isBotSep (c : Char) : Bool := c == ',' || c == ':' || c.isWhitespace

/-- `re.sub(r'^bot[,:\s]', '', s, flags=re.IGNORECASE)`: a `^`-anchored
pattern can substitute at most once, at the head of the string. -/
def stripBotLead (s : String) : String :=
  match s.toList with
  | b :: o :: t :: c :: rest =>
    if (b.toLower == 'b') && (o.toLower == 'o') && (t.toLower == 't') && isBotSep c
    then rest.asString else s
  | _ => s

/-- Helper for `re.sub(r'\s+', ' ', s)`: the flag records whether the previous
character belonged to a (already emitted) whitespace run. -/
def collapseWsAux : Bool → List Char → List Char
  | _, [] => []
  | prevWs, c :: cs =>
    if c.isWhitespace then
      if prevWs then collapseWsAux true cs
      else ' ' :: collapseWsAux true cs
    else c :: collapseWsAux false cs

/-- `re.sub(r'\s+', ' ', s)`: every maximal whitespace run becomes one space. -/
def collapseWs (s : String) : String := (collapseWsAux false s.toList).asString

/-- `re.search` of a literal pattern: does `pat` occur anywhere in `hay`? -/
def searchSub (pat hay : List Char) : Bool :=
  hay.tails.any (fun t => pat.isPrefixOf t)

/-- `re.search(r'^bot[,:\s]', cl)` on the already lowercased content. -/
def botLeadMatch : List Char → Bool
  | b :: o :: t :: c :: _ => (b == 'b') && (o == 'o') && (t == 't') && isBotSep c
  | _ => false

/-- `MessageHandler._is_bot_mentioned`: lowercase the content and search for
any of the fixed patterns `@bot`, `hey bot`, `hi bot`, `^bot[,:\s]`, or the
lowercased configured bot name (taken as a literal). -/
def is_bot_mentioned (cfg : MessagingConfig) (content : String) : Bool :=
  let cl := (pyLower content).toList
  searchSub "@bot".toList cl ||
  searchSub "hey bot".toList cl ||
  searchSub "hi bot".toList cl ||
  botLeadMatch cl ||
  searchSub (pyLower cfg.bot_name).toList cl

/-- `MessageHandler._clean_message_content`: strip; in a group, delete each
mention pattern in the fixed order (stripping after every substitution); then
collapse whitespace runs to single spaces. -/
def clean_message_content (cfg : MessagingConfig) (content : String)
    (is_group : Bool) : String :=
  let cleaned := pyStrip content
  let cleaned :=
    if is_group then
      let c1 := pyStrip (subCI "@bot" cleaned)
      let c2 := pyStrip (subCI "hey bot" c1)
      let c3 := pyStrip (subCI "hi bot" c2)
      let c4 := pyStrip (stripBotLead c3)
      pyStrip (subCI (pyLower cfg.bot_name) c4)
    else cleaned
  collapseWs cleaned

/-- The `context` map attached on the generative-processing path (the
timestamp field of the source is the injected clock). -/
structure ContextMap where
  is_group : Bool
  sender : String
  original_message : String
  cleaned_message : String
  timestamp : Int
deriving DecidableEq, Repr

/-- The `response_data` record built by `MessageHandler.process_message`.
`context = none` stands for the empty dict, `error = none` for an absent
`error` key. -/
structure ResponseData where
  content : String
  sender : String
  is_group : Bool
  message_type : String
  should_respond : Bool
  response_type : String
  context : Option ContextMap
  clear_history : Bool
  action : Option String
  timestamp : Int
  error : Option String
deriving DecidableEq, Repr

/-- The literal rate-limit notice of `process_message`. -/
def rate_limit_notice : String :=
  "You\x27re sending messages too quickly. Please wait a moment before sending another message."

/-- The initial `response_data` dict of `process_message` (before any check
fires). -/
def base_response (msg : Message) (now : Int) : ResponseData :=
  ⟨pyStrip msg.body, msg.sender, msg.isGroupMsg, msg.mtype, false, "text",
    none, false, none, now, none⟩

/-- The body of `MessageHandler.process_message` (the code inside the `try`):
the ordered decision chain over type, blocklist, allowlist, group policy,
mention, rate limit, commands, and finally content cleaning. Returns the
result record together with the updated handler state. -/
def process_message (cfg : MessagingConfig) (st : RLState) (msg : Message)
    (now : Int) : ResponseData × RLState :=
  let sender := msg.sender
  let content := pyStrip msg.body
  let is_group := msg.isGroupMsg
  let message_type := msg.mtype
  let response_data := base_response msg now
  if message_type ≠ "text" then (response_data, st)
  else if is_blocked_contact cfg sender then (response_data, st)
  else if ¬cfg.allowed_contacts.isEmpty ∧ ¬is_allowed_contact cfg sender then
    (response_data, st)
  else if is_group ∧ ¬cfg.respond_to_groups then (response_data, st)
  else if is_group ∧ cfg.require_mention ∧ ¬is_bot_mentioned cfg content then
    (response_data, st)
  else
    let checked := check_rate_limit cfg st sender now
    if checked.1 = false then
      ({ response_data with should_respond := true, content := rate_limit_notice },
       checked.2)
    else
      match match_command content with
      | some cmd =>
        let cr := handle_command cmd
        ({ response_data with
            content := cr.content, response_type := cr.response_type,
            clear_history := cr.clear_history, action := cr.action,
            should_respond := true }, checked.2)
      | none =>
        let cleaned := clean_message_content cfg content is_group
        ({ response_data with
            content := cleaned,
            context := some ⟨is_group, sender, content, cleaned, now⟩,
            should_respond := true }, checked.2)

/-- The dict returned by `process_message`'s `except` clause. The source dict
carries only `content`, `should_respond` and `error`; consumers read every
other key through defaulted access, so the remaining fields take the same
defaults here. -/
def except_result (e : String) : ResponseData :=
  ⟨"", "", false, "text", false, "text", none, false, none, 0, some e⟩

/-- The `try/except` boundary of `process_message`: a normally computed body
is returned as is, and any raised internal fault is converted into the
non-responding `except` record instead of propagating. -/
def process_message_total (body : Except String ResponseData) : ResponseData :=
  match body with
  | .ok r => r
  | .error e => except_result e

/-- Python slicing `l[-m:]` (note `l[-0:]` is the whole list). -/
def pyLastSlice (m : Nat) (l : List α) : List α :=
  if m = 0 then l else l.drop (l.length - m)

/-- `AIProcessor._update_conversation_history`: truncate to the most recent
`max_history_length` turns when over the cap, then store under the sender. -/
def update_conversation_history (cfg : AIConfig) (st : AIState) (sender : String)
    (conversation : List Turn) : AIState :=
  let conversation :=
    if cfg.max_history_length < conversation.length then
      pyLastSlice cfg.max_history_length conversation
    else conversation
  ⟨fun s => if s = sender then some conversation else st.conversation_history s⟩

/-- `AIProcessor.generate_response`. The provider call (and its exceptions,
which the source catches and turns into `None`) is abstracted as a function
to `Option String`.

`conversation` starts out as `self.conversation_history.get(sender, [])`,
which in Python is the stored list object itself whenever the key is present;
the in-place `append` of the user turn therefore mutates the store before the
provider is called, which the middle state below reproduces. On a truthy
(non-empty) reply the assistant turn is appended and
`_update_conversation_history` overwrites the sender's entry; on a falsy one
(`None` from a failure or exception, or an empty string — `if response:`)
the function returns `None` leaving the mid-call state as it is. -/
def generate_response (cfg : AIConfig) (st : AIState) (message : String)
    (sender : String) (now : Int) (provider : List Turn → Option String) :
    Option String × AIState :=
  let stored := st.conversation_history sender
  let conversation := stored.getD [] ++ [⟨"user", message, now⟩]
  let st1 : AIState :=
    match stored with
    | some _ =>
      ⟨fun s => if s = sender then some conversation else st.conversation_history s⟩
    | none => st
  match provider conversation with
  | some response =>
    if response = "" then (none, st1)
    else
      let conversation := conversation ++ [⟨"assistant", response, now⟩]
      (some response, update_conversation_history cfg st1 sender conversation)
  | none => (none, st1)

/-- `WhatsAppAIBot._handle_message`: run the admission pipeline, and when it
says to respond, feed the resulting content to `generate_response` and send
the provider's reply (if any). The returned `Option String` is the message
passed to `send_message`. -/
def handle_message (mcfg : MessagingConfig) (acfg : AIConfig) (hst : RLState)
    (ast : AIState) (msg : Message) (now : Int)
    (provider : List Turn → Option String) :
    Option String × RLState × AIState :=
  let processed := process_message mcfg hst msg now
  if processed.1.should_respond then
    let generated := generate_response acfg ast processed.1.content msg.sender now provider
    (generated.1, processed.2, generated.2)
  else
    (none, processed.2, ast)

/-! ## Rate-limiter lemmas -/

/-- A disabled rate limiter returns `true` and changes nothing. -/
lemma crl_disabled (cfg : MessagingConfig) (st : RLState) (sender : String)
    (now : Int) (h : cfg.rate_limit_enabled = false) :
    check_rate_limit cfg st sender now = (true, st) := by
  simp [check_rate_limit, h]

/-- Enabled rejection path: when the pruned window has reached the cap, the
check returns `false` and stores exactly the pruned window. -/
lemma crl_reject (cfg : MessagingConfig) (st : RLState) (sender : String)
    (now : Int) (h : cfg.rate_limit_enabled = true)
    (hcap : cfg.max_messages_per_hour ≤
      ((st.timestamps sender).filter (fun t => decide (now - hourSeconds < t))).length) :
    (check_rate_limit cfg st sender now).1 = false ∧
    (check_rate_limit cfg st sender now).2.timestamps sender =
      (st.timestamps sender).filter (fun t => decide (now - hourSeconds < t)) := by
  simp [check_rate_limit, h, hcap]

/-- Enabled admission path: below the cap, the check returns `true` and
appends `now` to the pruned window. -/
lemma crl_accept (cfg : MessagingConfig) (st : RLState) (sender : String)
    (now : Int) (h : cfg.rate_limit_enabled = true)
    (hcap : ((st.timestamps sender).filter (fun t => decide (now - hourSeconds < t))).length <
      cfg.max_messages_per_hour) :
    (check_rate_limit cfg st sender now).1 = true ∧
    (check_rate_limit cfg st sender now).2.timestamps sender =
      (st.timestamps sender).filter (fun t => decide (now - hourSeconds < t)) ++ [now] := by
  simp [check_rate_limit, h, Nat.not_le.mpr hcap]

/-- After an enabled check, every timestamp left in the checked sender's
window is strictly newer than `now - 1 hour`. -/
lemma crl_fresh (cfg : MessagingConfig) (st : RLState) (sender : String)
    (now : Int) (h : cfg.rate_limit_enabled = true) :
    ∀ t ∈ (check_rate_limit cfg st sender now).2.timestamps sender,
      now - hourSeconds < t := by
  intro t ht
  by_cases hcap : cfg.max_messages_per_hour ≤
      ((st.timestamps sender).filter (fun t => decide (now - hourSeconds < t))).length
  · rw [(crl_reject cfg st sender now h hcap).2] at ht
    simpa using (List.mem_filter.mp ht).2
  · rw [(crl_accept cfg st sender now h (Nat.not_le.mp hcap)).2] at ht
    rcases List.mem_append.mp ht with hk | hn
    · simpa using (List.mem_filter.mp hk).2
    · have : t = now := by simpa using hn
      subst this
      simp [hourSeconds]

/-- A rate-limit check never grows any window beyond the configured cap,
provided it was within the cap before (rejections store only the pruned
window; admissions only happen strictly below the cap). -/
lemma crl_window_le (cfg : MessagingConfig) (st : RLState) (sender : String)
    (now : Int) (x : String)
    (h : (st.timestamps x).length ≤ cfg.max_messages_per_hour) :
    ((check_rate_limit cfg st sender now).2.timestamps x).length ≤
      cfg.max_messages_per_hour := by
  by_cases hen : cfg.rate_limit_enabled = false
  · rw [crl_disabled cfg st sender now hen]
    exact h
  · have hen' : cfg.rate_limit_enabled = true := by
      cases hcase : cfg.rate_limit_enabled
      · exact absurd hcase hen
      · rfl
    by_cases hx : x = sender
    · subst hx
      by_cases hcap : cfg.max_messages_per_hour ≤
          ((st.timestamps x).filter (fun t => decide (now - hourSeconds < t))).length
      · rw [(crl_reject cfg st x now hen' hcap).2]
        exact le_trans (List.length_filter_le _ _) h
      · rw [(crl_accept cfg st x now hen' (Nat.not_le.mp hcap)).2]
        have := Nat.not_le.mp hcap
        simp [List.length_append]
        omega
    · have hunch : (check_rate_limit cfg st sender now).2.timestamps x = st.timestamps x := by
        simp [check_rate_limit, hen']
        by_cases hcap : cfg.max_messages_per_hour ≤
            ((st.timestamps sender).filter (fun t => decide (now - hourSeconds < t))).length
        all_goals simp [hcap, hx]
      rw [hunch]
      exact h

/-- C3: the rate limiter first discards every timestamp not strictly newer
than `now - 1 hour` (a timestamp exactly at `now - 1 hour` is expired), then
rejects without recording when the pruned count has reached the configured
hourly maximum, otherwise appends `now` and accepts; with rate limiting
disabled it always accepts without recording anything. -/
theorem C3_rate_limit_algorithm (cfg : MessagingConfig) (st : RLState)
    (sender : String) (now : Int) :
    (cfg.rate_limit_enabled = false →
      check_rate_limit cfg st sender now = (true, st)) ∧
    (cfg.rate_limit_enabled = true →
      (∀ t ∈ (check_rate_limit cfg st sender now).2.timestamps sender,
        now - hourSeconds < t) ∧
      (cfg.max_messages_per_hour ≤
          ((st.timestamps sender).filter (fun t => decide (now - hourSeconds < t))).length →
        (check_rate_limit cfg st sender now).1 = false ∧
        (check_rate_limit cfg st sender now).2.timestamps sender =
          (st.timestamps sender).filter (fun t => decide (now - hourSeconds < t))) ∧
      (((st.timestamps sender).filter (fun t => decide (now - hourSeconds < t))).length <
          cfg.max_messages_per_hour →
        (check_rate_limit cfg st sender now).1 = true ∧
        (check_rate_limit cfg st sender now).2.timestamps sender =
          (st.timestamps sender).filter (fun t => decide (now - hourSeconds < t)) ++ [now])) := by
  refine ⟨crl_disabled cfg st sender now, fun h => ⟨crl_fresh cfg st sender now h, ?_, ?_⟩⟩
  · exact crl_reject cfg st sender now h
  · exact crl_accept cfg st sender now h

/-- Witness for C3: with cap 2, window `[0, 100, 200]` and `now = 3700`, the
boundary timestamp `100 = now - 3600` is discarded along with `0`, one
timestamp survives, and the message is admitted and recorded. -/
theorem C3_rate_limit_algorithm_witness :
    (⟨[], [], false, true, true, 2, "AI Assistant"⟩ : MessagingConfig).rate_limit_enabled = true ∧
    (check_rate_limit ⟨[], [], false, true, true, 2, "AI Assistant"⟩
        ⟨fun _ => [0, 100, 200]⟩ "A" 3700).1 = true ∧
    (check_rate_limit ⟨[], [], false, true, true, 2, "AI Assistant"⟩
        ⟨fun _ => [0, 100, 200]⟩ "A" 3700).2.timestamps "A" = [200, 3700] := by
  have h := (C3_rate_limit_algorithm ⟨[], [], false, true, true, 2, "AI Assistant"⟩
      ⟨fun _ => [0, 100, 200]⟩ "A" 3700).2 rfl
  have hacc := h.2.2 (by decide)
  refine ⟨rfl, hacc.1, ?_⟩
  rw [hacc.2]
  decide

/-- A sequence of rate-limit checks run from the empty initial state
(`self.message_timestamps = {}`). -/
def run_rate_checks (cfg : MessagingConfig) (ops : List (String × Int)) : RLState :=
  ops.foldl (fun st p => (check_rate_limit cfg st p.1 p.2).2) ⟨fun _ => []⟩

lemma run_rate_checks_bound_aux (cfg : MessagingConfig) :
    ∀ (ops : List (String × Int)) (st : RLState),
      (∀ x, (st.timestamps x).length ≤ cfg.max_messages_per_hour) →
      ∀ x, ((ops.foldl (fun st p => (check_rate_limit cfg st p.1 p.2).2) st).timestamps x).length ≤
        cfg.max_messages_per_hour := by
  intro ops
  induction ops with
  | nil => intro st h x; exact h x
  | cons p rest ih =>
    intro st h x
    exact ih _ (fun y => crl_window_le cfg st p.1 p.2 y (h y)) x

/-- Every window of every reachable rate-limiter state is within the cap. -/
lemma run_rate_checks_bound (cfg : MessagingConfig) (ops : List (String × Int))
    (x : String) :
    ((run_rate_checks cfg ops).timestamps x).length ≤ cfg.max_messages_per_hour :=
  run_rate_checks_bound_aux cfg ops ⟨fun _ => []⟩ (fun _ => by simp) x

/-- With rate limiting disabled, no check ever records anything. -/
lemma run_rate_checks_disabled (cfg : MessagingConfig)
    (h : cfg.rate_limit_enabled = false) :
    ∀ ops : List (String × Int), run_rate_checks cfg ops = ⟨fun _ => []⟩ := by
  have step : ∀ (st : RLState) (p : String × Int),
      (check_rate_limit cfg st p.1 p.2).2 = st := by
    intro st p
    rw [crl_disabled cfg st p.1 p.2 h]
  intro ops
  induction ops with
  | nil => rfl
  | cons p rest ih =>
    simpa [run_rate_checks, step] using ih

lemma run_rate_checks_snoc (cfg : MessagingConfig) (ops : List (String × Int))
    (sender : String) (now : Int) :
    run_rate_checks cfg (ops ++ [(sender, now)]) =
      (check_rate_limit cfg (run_rate_checks cfg ops) sender now).2 := by
  simp [run_rate_checks, List.foldl_append]

/-- C4: after any rate-limit check on a reachable state, the checked sender's
window holds no timestamp older than one hour before that check's `now`, its
length never exceeds the configured hourly cap, and a rejected check never
grows the window. -/
theorem C4_rate_window_invariant (cfg : MessagingConfig)
    (ops : List (String × Int)) (sender : String) (now : Int) :
    (∀ t ∈ (run_rate_checks cfg (ops ++ [(sender, now)])).timestamps sender,
      now - hourSeconds < t) ∧
    ((run_rate_checks cfg (ops ++ [(sender, now)])).timestamps sender).length ≤
      cfg.max_messages_per_hour ∧
    ((check_rate_limit cfg (run_rate_checks cfg ops) sender now).1 = false →
      ((run_rate_checks cfg (ops ++ [(sender, now)])).timestamps sender).length ≤
        ((run_rate_checks cfg ops).timestamps sender).length) := by
  rw [run_rate_checks_snoc]
  refine ⟨?_, ?_, ?_⟩
  · intro t ht
    by_cases hen : cfg.rate_limit_enabled = false
    · rw [run_rate_checks_disabled cfg hen ops, crl_disabled cfg _ sender now hen] at ht
      simp at ht
    · have hen' : cfg.rate_limit_enabled = true := by
        cases hcase : cfg.rate_limit_enabled
        · exact absurd hcase hen
        · rfl
      exact crl_fresh cfg _ sender now hen' t ht
  · exact crl_window_le cfg _ sender now sender (run_rate_checks_bound cfg ops sender)
  · intro hrej
    by_cases hen : cfg.rate_limit_enabled = false
    · rw [crl_disabled cfg _ sender now hen] at hrej
      simp at hrej
    · have hen' : cfg.rate_limit_enabled = true := by
        cases hcase : cfg.rate_limit_enabled
        · exact absurd hcase hen
        · rfl
      by_cases hcap : cfg.max_messages_per_hour ≤
          (((run_rate_checks cfg ops).timestamps sender).filter
            (fun t => decide (now - hourSeconds < t))).length
      · rw [(crl_reject cfg _ sender now hen' hcap).2]
        exact List.length_filter_le _ _
      · rw [(crl_accept cfg _ sender now hen' (Nat.not_le.mp hcap)).1] at hrej
        simp at hrej

/-- Witness for C4: cap 2, three checks for sender `"A"` at 0, 10, 20 — the
third is rejected and the window stays at two timestamps. -/
theorem C4_rate_window_invariant_witness :
    ((run_rate_checks ⟨[], [], false, true, true, 2, "AI Assistant"⟩
        [("A", 0), ("A", 10), ("A", 20)]).timestamps "A").length ≤ 2 := by
  have h := C4_rate_window_invariant ⟨[], [], false, true, true, 2, "AI Assistant"⟩
    [("A", 0), ("A", 10)] "A" 20
  exact h.2.1

/-- C8: the `try/except` boundary of `process_message` converts any internal
fault into a non-responding result carrying the fault's description instead
of re-raising it. -/
theorem C8_fault_containment (body : Except String ResponseData) (e : String)
    (h : body = Except.error e) :
    (process_message_total body).should_respond = false ∧
    (process_message_total body).error = some e ∧
    process_message_total body = except_result e := by
  subst h
  exact ⟨rfl, rfl, rfl⟩

/-- Witness for C8 at the concrete fault `"boom"`. -/
theorem C8_fault_containment_witness :
    ((Except.error "boom" : Except String ResponseData) = Except.error "boom") ∧
    (process_message_total (Except.error "boom")).should_respond = false ∧
    (process_message_total (Except.error "boom")).error = some "boom" :=
  ⟨rfl, (C8_fault_containment (Except.error "boom") "boom" rfl).1,
    (C8_fault_containment (Except.error "boom") "boom" rfl).2.1⟩

/-- C5: updating a sender's conversation history always leaves a stored
history of at most the configured (positive) cap, obtained by dropping oldest
turns first: the stored history is a suffix of the offered conversation and
equals it whenever the conversation is within the cap. -/
theorem C5_history_cap (cfg : AIConfig) (st : AIState) (sender : String)
    (conversation : List Turn) (h : 0 < cfg.max_history_length) :
    (update_conversation_history cfg st sender conversation).conversation_history sender ≠ none ∧
    (((update_conversation_history cfg st sender conversation).conversation_history sender).getD []).length ≤
      cfg.max_history_length ∧
    List.IsSuffix
      (((update_conversation_history cfg st sender conversation).conversation_history sender).getD [])
      conversation ∧
    (conversation.length ≤ cfg.max_history_length →
      ((update_conversation_history cfg st sender conversation).conversation_history sender).getD [] =
        conversation) := by
  by_cases hlt : cfg.max_history_length < conversation.length
  · have hm : cfg.max_history_length ≠ 0 := Nat.pos_iff_ne_zero.mp h
    simp only [update_conversation_history, if_pos hlt, pyLastSlice, if_neg hm]
    refine ⟨by simp, ?_, ?_, ?_⟩
    · simp [List.length_drop]
      omega
    · simpa using List.drop_suffix _ conversation
    · intro hle
      omega
  · simp only [update_conversation_history, if_neg hlt]
    refine ⟨by simp, ?_, ?_, ?_⟩
    · simpa using Nat.not_lt.mp hlt
    · simpa using List.suffix_refl conversation
    · intro _
      simp

/-- Witness for C5: cap 2, a three-turn conversation — the stored history is
the last two turns. -/
theorem C5_history_cap_witness :
    0 < (⟨2⟩ : AIConfig).max_history_length ∧
    (((update_conversation_history ⟨2⟩ ⟨fun _ => none⟩ "A"
        [⟨"user", "a", 0⟩, ⟨"assistant", "b", 1⟩, ⟨"user", "c", 2⟩]).conversation_history "A").getD
      []).length ≤ (⟨2⟩ : AIConfig).max_history_length :=
  ⟨by decide,
    (C5_history_cap ⟨2⟩ ⟨fun _ => none⟩ "A"
      [⟨"user", "a", 0⟩, ⟨"assistant", "b", 1⟩, ⟨"user", "c", 2⟩] (by decide)).2.1⟩

/-! ## Contact filter and command router -/

/-- C7: the block check runs before (and regardless of) the allowlist check:
a sender on both lists is rejected with `should_respond = false`; and with an
empty allowlist every non-blocked sender passes both contact checks. -/
theorem C7_blocklist_precedence (cfg : MessagingConfig) (st : RLState)
    (msg : Message) (now : Int) :
    (msg.mtype = "text" → msg.sender ∈ cfg.blocked_contacts →
      msg.sender ∈ cfg.allowed_contacts →
      (process_message cfg st msg now).1.should_respond = false) ∧
    (cfg.allowed_contacts = [] → ∀ s, s ∉ cfg.blocked_contacts →
      is_blocked_contact cfg s = false ∧ is_allowed_contact cfg s = true) := by
  constructor
  · intro h1 hbl _
    have hb : is_blocked_contact cfg msg.sender = true := by
      simpa [is_blocked_contact] using hbl
    simp [process_message, h1, hb, base_response]
  · intro he s hnb
    constructor
    · simpa [is_blocked_contact] using hnb
    · simp [is_allowed_contact, he]

/-- Witness for C7: sender `"A"` is on both the blocklist and the allowlist
and its plain text message gets `should_respond = false`. -/
theorem C7_blocklist_precedence_witness :
    (process_message ⟨["A"], ["A"], false, true, true, 30, "AI Assistant"⟩
      ⟨fun _ => []⟩ ⟨"A", "hi", false, "text"⟩ 0).1.should_respond = false :=
  (C7_blocklist_precedence ⟨["A"], ["A"], false, true, true, 30, "AI Assistant"⟩
    ⟨fun _ => []⟩ ⟨"A", "hi", false, "text"⟩ 0).1 rfl (by decide) (by decide)

/-- C6: command recognition compares the whole stripped, lowercased body
against the fixed synonym alternations, fires at most one command per
message, routes `"/clear"`, `"CLEAR"` and `"reset"` to the one clear-history
result, and rejects `"please clear"` because matching is anchored to the full
body, not a substring scan. -/
theorem C6_command_matching :
    match_command "/clear" = some Command.clear ∧
    match_command "CLEAR" = some Command.clear ∧
    match_command "reset" = some Command.clear ∧
    match_command "please clear" = none ∧
    handle_command Command.clear =
      ⟨"Conversation history cleared! 🧹", "text", true, none⟩ ∧
    (∀ s c, match_command s = some c → pyStrip (pyLower s) ∈ command_synonyms c) ∧
    (∀ s c₁ c₂, match_command s = some c₁ → match_command s = some c₂ → c₁ = c₂) := by
  refine ⟨by decide, by decide, by decide, by decide, by decide, ?_, ?_⟩
  · intro s c hc
    simp only [match_command] at hc
    split_ifs at hc with h1 h2 h3 h4 h5
    all_goals (cases Option.some.inj hc; assumption)
  · intro s c₁ c₂ hc₁ hc₂
    rw [hc₁] at hc₂
    exact Option.some.inj hc₂

/-- Witness for C6: `" Reset "` is matched (case-insensitively, stripped) and
its canonical form sits in the clear synonym list. -/
theorem C6_command_matching_witness :
    pyStrip (pyLower " Reset ") ∈ command_synonyms Command.clear :=
  C6_command_matching.2.2.2.2.2.1 " Reset " Command.clear (by decide)

/-! ## Admission pipeline lemmas -/

/-- Step (1): a non-text message terminates the pipeline with the untouched
base record. -/
lemma pm_gate_type (cfg : MessagingConfig) (st : RLState) (msg : Message)
    (now : Int) (h : msg.mtype ≠ "text") :
    process_message cfg st msg now = (base_response msg now, st) := by
  simp [process_message, h]

/-- Step (2): a blocked sender terminates the pipeline. -/
lemma pm_gate_blocked (cfg : MessagingConfig) (st : RLState) (msg : Message)
    (now : Int) (h1 : msg.mtype = "text")
    (h2 : is_blocked_contact cfg msg.sender = true) :
    process_message cfg st msg now = (base_response msg now, st) := by
  simp [process_message, h1, h2]

/-- Step (3): a non-empty allowlist not containing the sender terminates the
pipeline. -/
lemma pm_gate_allowlist (cfg : MessagingConfig) (st : RLState) (msg : Message)
    (now : Int) (h1 : msg.mtype = "text")
    (h2 : is_blocked_contact cfg msg.sender = false)
    (h3 : cfg.allowed_contacts.isEmpty = false)
    (h4 : is_allowed_contact cfg msg.sender = false) :
    process_message cfg st msg now = (base_response msg now, st) := by
  simp [process_message, h1, h2, h3, h4]

/-- Step (4): a group message with group responses disabled terminates the
pipeline. -/
lemma pm_gate_group (cfg : MessagingConfig) (st : RLState) (msg : Message)
    (now : Int) (h1 : msg.mtype = "text")
    (h2 : is_blocked_contact cfg msg.sender = false)
    (h3 : cfg.allowed_contacts.isEmpty = true ∨ is_allowed_contact cfg msg.sender = true)
    (hg : msg.isGroupMsg = true) (hng : cfg.respond_to_groups = false) :
    process_message cfg st msg now = (base_response msg now, st) := by
  rcases h3 with h3 | h3 <;> simp [process_message, h1, h2, h3, hg, hng]

/-- Step (5): a group message that requires but lacks a mention terminates
the pipeline. -/
lemma pm_gate_mention (cfg : MessagingConfig) (st : RLState) (msg : Message)
    (now : Int) (h1 : msg.mtype = "text")
    (h2 : is_blocked_contact cfg msg.sender = false)
    (h3 : cfg.allowed_contacts.isEmpty = true ∨ is_allowed_contact cfg msg.sender = true)
    (hg : msg.isGroupMsg = true) (hrg : cfg.respond_to_groups = true)
    (hrm : cfg.require_mention = true)
    (hm : is_bot_mentioned cfg (pyStrip msg.body) = false) :
    process_message cfg st msg now = (base_response msg now, st) := by
  rcases h3 with h3 | h3 <;> simp [process_message, h1, h2, h3, hg, hrg, hrm, hm]

/-- Negations of the three remaining gate conditions (in the simp-normal
form they take inside the pipeline's conditionals) under "passes steps
(1)-(5)" hypotheses. -/
lemma pm_gate_conds (cfg : MessagingConfig) (msg : Message)
    (h3 : cfg.allowed_contacts.isEmpty = true ∨ is_allowed_contact cfg msg.sender = true)
    (h45 : msg.isGroupMsg = true →
      cfg.respond_to_groups = true ∧
        (cfg.require_mention = true → is_bot_mentioned cfg (pyStrip msg.body) = true)) :
    ¬(¬cfg.allowed_contacts = [] ∧ is_allowed_contact cfg msg.sender = false) ∧
    ¬(msg.isGroupMsg = true ∧ cfg.respond_to_groups = false) ∧
    ¬(msg.isGroupMsg = true ∧ cfg.require_mention = true ∧
      is_bot_mentioned cfg (pyStrip msg.body) = false) := by
  refine ⟨?_, ?_, ?_⟩
  · rcases h3 with h3 | h3
    · have hnil : cfg.allowed_contacts = [] := by
        simpa using h3
      rintro ⟨ha, _⟩
      exact ha hnil
    · rintro ⟨_, hb⟩
      rw [h3] at hb
      cases hb
  · rintro ⟨hg, hr⟩
    rw [(h45 hg).1] at hr
    cases hr
  · rintro ⟨hg, hm, hn⟩
    rw [(h45 hg).2 hm] at hn
    cases hn

/-- Step (6): past steps (1)-(5), a failed rate-limit check makes the
pipeline respond with the literal rate-limit notice, keeping the updated
rate-limiter state. -/
lemma process_message_rate_limited (cfg : MessagingConfig) (st : RLState)
    (msg : Message) (now : Int) (h1 : msg.mtype = "text")
    (h2 : is_blocked_contact cfg msg.sender = false)
    (h3 : cfg.allowed_contacts.isEmpty = true ∨ is_allowed_contact cfg msg.sender = true)
    (h45 : msg.isGroupMsg = true →
      cfg.respond_to_groups = true ∧
        (cfg.require_mention = true → is_bot_mentioned cfg (pyStrip msg.body) = true))
    (hrl : (check_rate_limit cfg st msg.sender now).1 = false) :
    process_message cfg st msg now =
      ({ base_response msg now with
          should_respond := true, content := rate_limit_notice },
        (check_rate_limit cfg st msg.sender now).2) := by
  obtain ⟨hc3, hc4, hc5⟩ := pm_gate_conds cfg msg h3 h45
  simp [process_message, h1, h2, hrl]
  rw [if_neg hc3, if_neg hc4, if_neg hc5]

/-- Step (7): past steps (1)-(6), a matched command produces its canned
result with `should_respond = true`. -/
lemma process_message_command (cfg : MessagingConfig) (st : RLState)
    (msg : Message) (now : Int) (cmd : Command) (h1 : msg.mtype = "text")
    (h2 : is_blocked_contact cfg msg.sender = false)
    (h3 : cfg.allowed_contacts.isEmpty = true ∨ is_allowed_contact cfg msg.sender = true)
    (h45 : msg.isGroupMsg = true →
      cfg.respond_to_groups = true ∧
        (cfg.require_mention = true → is_bot_mentioned cfg (pyStrip msg.body) = true))
    (hrl : (check_rate_limit cfg st msg.sender now).1 = true)
    (hc : match_command (pyStrip msg.body) = some cmd) :
    process_message cfg st msg now =
      ({ base_response msg now with
          content := (handle_command cmd).content,
          response_type := (handle_command cmd).response_type,
          clear_history := (handle_command cmd).clear_history,
          action := (handle_command cmd).action,
          should_respond := true },
        (check_rate_limit cfg st msg.sender now).2) := by
  obtain ⟨hc3, hc4, hc5⟩ := pm_gate_conds cfg msg h3 h45
  simp [process_message, h1, h2, hrl, hc]
  rw [if_neg hc3, if_neg hc4, if_neg hc5]

/-- Step (8): past steps (1)-(7), the pipeline admits the message for
generative processing with cleaned content and a populated context map. -/
lemma process_message_normal (cfg : MessagingConfig) (st : RLState)
    (msg : Message) (now : Int) (h1 : msg.mtype = "text")
    (h2 : is_blocked_contact cfg msg.sender = false)
    (h3 : cfg.allowed_contacts.isEmpty = true ∨ is_allowed_contact cfg msg.sender = true)
    (h45 : msg.isGroupMsg = true →
      cfg.respond_to_groups = true ∧
        (cfg.require_mention = true → is_bot_mentioned cfg (pyStrip msg.body) = true))
    (hrl : (check_rate_limit cfg st msg.sender now).1 = true)
    (hc : match_command (pyStrip msg.body) = none) :
    process_message cfg st msg now =
      ({ base_response msg now with
          content := clean_message_content cfg (pyStrip msg.body) msg.isGroupMsg,
          context := some ⟨msg.isGroupMsg, msg.sender, pyStrip msg.body,
            clean_message_content cfg (pyStrip msg.body) msg.isGroupMsg, now⟩,
          should_respond := true },
        (check_rate_limit cfg st msg.sender now).2) := by
  obtain ⟨hc3, hc4, hc5⟩ := pm_gate_conds cfg msg h3 h45
  simp [process_message, h1, h2, hrl, hc]
  rw [if_neg hc3, if_neg hc4, if_neg hc5]

/-- C1: the admission pipeline evaluates its checks in the fixed order
(1) non-text, (2) blocked, (3) allowlist, (4) group policy, (5) mention,
(6) rate limit, (7) command, (8) clean-and-admit, returning at the first
terminating condition; steps (1)-(5) return `should_respond = false` and
among (1)-(6) only the rate-limit step responds. -/
theorem C1_admission_order (cfg : MessagingConfig) (st : RLState)
    (msg : Message) (now : Int) :
    (msg.mtype ≠ "text" →
      process_message cfg st msg now = (base_response msg now, st)) ∧
    (msg.mtype = "text" → is_blocked_contact cfg msg.sender = true →
      process_message cfg st msg now = (base_response msg now, st)) ∧
    (msg.mtype = "text" → is_blocked_contact cfg msg.sender = false →
      cfg.allowed_contacts.isEmpty = false →
      is_allowed_contact cfg msg.sender = false →
      process_message cfg st msg now = (base_response msg now, st)) ∧
    (msg.mtype = "text" → is_blocked_contact cfg msg.sender = false →
      (cfg.allowed_contacts.isEmpty = true ∨ is_allowed_contact cfg msg.sender = true) →
      msg.isGroupMsg = true → cfg.respond_to_groups = false →
      process_message cfg st msg now = (base_response msg now, st)) ∧
    (msg.mtype = "text" → is_blocked_contact cfg msg.sender = false →
      (cfg.allowed_contacts.isEmpty = true ∨ is_allowed_contact cfg msg.sender = true) →
      msg.isGroupMsg = true → cfg.respond_to_groups = true →
      cfg.require_mention = true →
      is_bot_mentioned cfg (pyStrip msg.body) = false →
      process_message cfg st msg now = (base_response msg now, st)) ∧
    (msg.mtype = "text" → is_blocked_contact cfg msg.sender = false →
      (cfg.allowed_contacts.isEmpty = true ∨ is_allowed_contact cfg msg.sender = true) →
      (msg.isGroupMsg = true →
        cfg.respond_to_groups = true ∧
          (cfg.require_mention = true → is_bot_mentioned cfg (pyStrip msg.body) = true)) →
      (check_rate_limit cfg st msg.sender now).1 = false →
      (process_message cfg st msg now).1.should_respond = true ∧
      (process_message cfg st msg now).1.content = rate_limit_notice) ∧
    (msg.mtype = "text" → is_blocked_contact cfg msg.sender = false →
      (cfg.allowed_contacts.isEmpty = true ∨ is_allowed_contact cfg msg.sender = true) →
      (msg.isGroupMsg = true →
        cfg.respond_to_groups = true ∧
          (cfg.require_mention = true → is_bot_mentioned cfg (pyStrip msg.body) = true)) →
      (check_rate_limit cfg st msg.sender now).1 = true →
      ∀ cmd, match_command (pyStrip msg.body) = some cmd →
      (process_message cfg st msg now).1.should_respond = true ∧
      (process_message cfg st msg now).1.content = (handle_command cmd).content ∧
      (process_message cfg st msg now).1.clear_history = (handle_command cmd).clear_history ∧
      (process_message cfg st msg now).1.action = (handle_command cmd).action) ∧
    (msg.mtype = "text" → is_blocked_contact cfg msg.sender = false →
      (cfg.allowed_contacts.isEmpty = true ∨ is_allowed_contact cfg msg.sender = true) →
      (msg.isGroupMsg = true →
        cfg.respond_to_groups = true ∧
          (cfg.require_mention = true → is_bot_mentioned cfg (pyStrip msg.body) = true)) →
      (check_rate_limit cfg st msg.sender now).1 = true →
      match_command (pyStrip msg.body) = none →
      (process_message cfg st msg now).1.should_respond = true ∧
      (process_message cfg st msg now).1.content =
        clean_message_content cfg (pyStrip msg.body) msg.isGroupMsg) := by
  refine ⟨pm_gate_type cfg st msg now, pm_gate_blocked cfg st msg now,
    pm_gate_allowlist cfg st msg now, pm_gate_group cfg st msg now,
    pm_gate_mention cfg st msg now, ?_, ?_, ?_⟩
  · intro h1 h2 h3 h45 hrl
    rw [process_message_rate_limited cfg st msg now h1 h2 h3 h45 hrl]
    exact ⟨rfl, rfl⟩
  · intro h1 h2 h3 h45 hrl cmd hc
    rw [process_message_command cfg st msg now cmd h1 h2 h3 h45 hrl hc]
    exact ⟨rfl, rfl, rfl, rfl⟩
  · intro h1 h2 h3 h45 hrl hc
    rw [process_message_normal cfg st msg now h1 h2 h3 h45 hrl hc]
    exact ⟨rfl, rfl⟩

/-- Witness for C1 at step (1): an image message yields the non-responding
base record and an untouched rate-limiter state. -/
theorem C1_admission_order_witness :
    process_message ⟨[], [], false, true, true, 30, "AI Assistant"⟩
        ⟨fun _ => []⟩ ⟨"A", "pic", false, "image"⟩ 0 =
      (base_response ⟨"A", "pic", false, "image"⟩ 0, ⟨fun _ => []⟩) :=
  (C1_admission_order ⟨[], [], false, true, true, 30, "AI Assistant"⟩
    ⟨fun _ => []⟩ ⟨"A", "pic", false, "image"⟩ 0).1 (by decide)

/-! ## Conversation round trip -/

/-- The store entry written by an update. -/
lemma update_lookup (cfg : AIConfig) (st : AIState) (sender : String)
    (conv : List Turn) :
    (update_conversation_history cfg st sender conv).conversation_history sender =
      some (if cfg.max_history_length < conv.length
        then pyLastSlice cfg.max_history_length conv else conv) := by
  simp [update_conversation_history]

/-- With a cap of at least two, updating with `base ++ [u, a]` always keeps
the final two turns. -/
lemma update_keeps_last_two (cfg : AIConfig) (st : AIState) (sender : String)
    (base : List Turn) (u a : Turn) (h : 2 ≤ cfg.max_history_length) :
    (update_conversation_history cfg st sender (base ++ [u, a])).conversation_history sender ≠ none ∧
    List.IsSuffix [u, a]
      (((update_conversation_history cfg st sender (base ++ [u, a])).conversation_history sender).getD []) := by
  rw [update_lookup]
  refine ⟨by simp, ?_⟩
  rw [Option.getD_some]
  by_cases hlt : cfg.max_history_length < (base ++ [u, a]).length
  · have hm : cfg.max_history_length ≠ 0 := by omega
    rw [if_pos hlt]
    unfold pyLastSlice
    rw [if_neg hm]
    have hlen : (base ++ [u, a]).length = base.length + 2 := by simp
    have hk : (base ++ [u, a]).length - cfg.max_history_length ≤ base.length := by omega
    rw [List.drop_append_of_le_length hk]
    exact List.suffix_append _ _
  · rw [if_neg hlt]
    exact List.suffix_append _ _

/-- C9: a normal text message that passes every filter, matches no command
and passes the rate limit is admitted with cleaned content; once the
generative backend returns a reply, the sender's stored history (cap at
least two) ends with the user turn holding that cleaned content immediately
followed by the assistant turn holding the reply. -/
theorem C9_round_trip (mcfg : MessagingConfig) (acfg : AIConfig) (hst : RLState)
    (ast : AIState) (msg : Message) (now : Int)
    (provider : List Turn → Option String) (reply : String)
    (h1 : msg.mtype = "text")
    (h2 : is_blocked_contact mcfg msg.sender = false)
    (h3 : mcfg.allowed_contacts.isEmpty = true ∨ is_allowed_contact mcfg msg.sender = true)
    (h45 : msg.isGroupMsg = true →
      mcfg.respond_to_groups = true ∧
        (mcfg.require_mention = true → is_bot_mentioned mcfg (pyStrip msg.body) = true))
    (h6 : (check_rate_limit mcfg hst msg.sender now).1 = true)
    (h7 : match_command (pyStrip msg.body) = none)
    (h8 : provider ((ast.conversation_history msg.sender).getD [] ++
      [⟨"user", clean_message_content mcfg (pyStrip msg.body) msg.isGroupMsg, now⟩]) = some reply)
    (h9 : 2 ≤ acfg.max_history_length) (h10 : reply ≠ "") :
    (handle_message mcfg acfg hst ast msg now provider).1 = some reply ∧
    (handle_message mcfg acfg hst ast msg now provider).2.2.conversation_history msg.sender ≠ none ∧
    List.IsSuffix
      [⟨"user", clean_message_content mcfg (pyStrip msg.body) msg.isGroupMsg, now⟩,
        ⟨"assistant", reply, now⟩]
      (((handle_message mcfg acfg hst ast msg now provider).2.2.conversation_history
        msg.sender).getD []) := by
  have hpm := process_message_normal mcfg hst msg now h1 h2 h3 h45 h6 h7
  simp only [handle_message, hpm, generate_response]
  rw [h8]
  simp only [if_neg h10]
  refine ⟨rfl, ?_, ?_⟩
  · rw [List.append_assoc]
    exact (update_keeps_last_two acfg _ msg.sender _ _ _ h9).1
  · rw [List.append_assoc]
    exact (update_keeps_last_two acfg _ msg.sender _ _ _ h9).2

set_option maxRecDepth 40000 in
/-- Witness for C9: with the default configuration, an empty store and a
stub backend replying `"yo"`, the direct message `"hi there"` is admitted and
the stub's reply is sent. -/
theorem C9_round_trip_witness :
    (handle_message ⟨[], [], false, true, true, 30, "AI Assistant"⟩ ⟨10⟩
      ⟨fun _ => []⟩ ⟨fun _ => none⟩ ⟨"A", "hi there", false, "text"⟩ 0
      (fun _ => some "yo")).1 = some "yo" :=
  (C9_round_trip ⟨[], [], false, true, true, 30, "AI Assistant"⟩ ⟨10⟩
    ⟨fun _ => []⟩ ⟨fun _ => none⟩ ⟨"A", "hi there", false, "text"⟩ 0
    (fun _ => some "yo") "yo" rfl (by decide) (Or.inl (by decide))
    (fun hg => absurd hg (by decide)) (by decide) (by decide) rfl (by decide)
    (by decide)).1

/-! ## The rate-limit dispatch scenario (claim C2)

The fixed scenario: default configuration (cap 30 per hour, history cap 10),
sender `"A"`, a stub generative backend that always replies `"ok"`, and 31
distinct plain text messages sent at seconds 0..30. -/

def c2mcfg : MessagingConfig := ⟨[], [], false, true, true, 30, "AI Assistant"⟩

def c2acfg : AIConfig := ⟨10⟩

def c2provider : List Turn → Option String := fun _ => some "ok"

/-- The `i`-th message of the scenario (bodies pairwise distinct). -/
def c2msg (i : Nat) : Message := ⟨"A", "hello " ++ toString i, false, "text"⟩

/-- One full orchestrator step of the scenario at second `i`. -/
def c2step (st : RLState × AIState) (i : Nat) :
    Option String × RLState × AIState :=
  handle_message c2mcfg c2acfg st.1 st.2 (c2msg i) (Int.ofNat i) c2provider

/-- The state after the first `n` messages of the scenario. -/
def c2run (n : Nat) : RLState × AIState :=
  (List.range n).foldl (fun st i => (c2step st i).2)
    (⟨fun _ => []⟩, ⟨fun _ => none⟩)

set_option maxRecDepth 1000000 in
/-- C2 evaluated on the code: messages 1-30 are all admitted and recorded;
message 31 is rate-limited at admission and its `AdmissionResult` does carry
the literal rate-limit notice — but the orchestrator then feeds that notice
into the generative backend as user content, so the reply actually sent is
the backend's output (`"ok"`), not the literal notice, and sender `"A"`'s
conversation history grows rather than staying unchanged. -/
theorem C2_rate_limit_divergence :
    ((c2run 30).1.timestamps "A").length = 30 ∧
    (process_message c2mcfg (c2run 30).1 (c2msg 30) 30).1.content = rate_limit_notice ∧
    (c2step (c2run 30) 30).1 = some "ok" ∧
    (c2step (c2run 30) 30).1 ≠ some rate_limit_notice ∧
    (c2step (c2run 30) 30).2.2.conversation_history "A" ≠
      (c2run 30).2.conversation_history "A" := by
  decide

/-! ## Failed generation is not atomic (claim C10) -/

/-- A store in which sender `"A"` already has one turn of history. -/
def c10st : AIState :=
  ⟨fun s => if s = "A" then some [⟨"user", "hi", 0⟩] else none⟩

set_option maxRecDepth 8000 in
/-- C10 evaluated on the code: when the provider produces no reply,
`generate_response` returns `none`, yet sender `"A"`'s stored history has
grown by the user turn — the in-place `append` on the list object shared
with the store (`dict.get` aliasing) persists even though
`_update_conversation_history` was never called. -/
theorem C10_failed_generation_mutation :
    (generate_response ⟨10⟩ c10st "x" "A" 5 (fun _ => none)).1 = none ∧
    (generate_response ⟨10⟩ c10st "x" "A" 5 (fun _ => none)).2.conversation_history "A" =
      some [⟨"user", "hi", 0⟩, ⟨"user", "x", 5⟩] ∧
    (generate_response ⟨10⟩ c10st "x" "A" 5 (fun _ => none)).2.conversation_history "A" ≠
      c10st.conversation_history "A" := by
  decide

end WhatsAppAgent
